import Mathlib

/-!
Verification development for the ZelloBridge watchdog
(`src/ZelloBridgeWatchdog.py`).

The watchdog polls an HTTP status endpoint, scans the returned snapshot for
connectors of type `zello-channel-api` whose `last_error.code` is 3001 or
3002, and on a hit rewrites the connector tokens in the configuration file
(`update_connector_tokens`) and requests a service restart.

The embedding below models Python's dynamic data (values produced by
`json.load` / `response.json()`) with the inductive `JVal`, and Python's
runtime exceptions (`TypeError`, `AttributeError`, `KeyError`) with the
`Except PyErr` monad.  External libraries (the `json` codec, PEM parsing,
`jwt.encode`) are parameters of the model collected in `Env`; the clock
(`time.time()`) is a function from the call counter to a rational number of
seconds.  Floating-point numbers do not occur in the documents any claim is
about, so JSON numbers are modelled as integers.
-/

namespace ZelloBridgeWatchdog

/-- JSON-shaped Python values, as produced by `json.load` and
`response.json()`. -/
inductive JVal where
  | null
  | bool (b : Bool)
  | int (n : ℤ)
  | str (s : String)
  | arr (elems : List JVal)
  | obj (fields : List (String × JVal))

/-- Python runtime exceptions that the embedded code can raise and that are
not caught by any handler in the source. -/
inductive PyErr where
  | typeError
  | attributeError
  | keyError (k : String)
deriving DecidableEq

theorem ok_bind {α β : Type} (a : α) (f : α → Except PyErr β) :
    (Except.ok a >>= f) = f a := rfl

theorem error_bind {α β : Type} (e : PyErr) (f : α → Except PyErr β) :
    ((Except.error e : Except PyErr α) >>= f) = .error e := rfl

/-- Replace the value stored at key `k` in an association list (Python dict
assignment d\x7bk\x7d = v): the first binding of `k` is replaced in place,
preserving order; if `k` is absent the binding is appended at the end. -/
def setAssoc {β : Type} : List (String × β) → String → β → List (String × β)
  | [], k, v => [(k, v)]
  | (k', v') :: rest, k, v =>
      if k' = k then (k, v) :: rest else (k', v') :: setAssoc rest k v

/-- Dictionary field lookup: `some` the stored value when `j` is an object
with key `k`, `none` otherwise. -/
def objGet (j : JVal) (k : String) : Option JVal :=
  match j with
  | .obj fields => fields.lookup k
  | _ => none

/-- Python dict item assignment on an object value.  Call sites only reach
this after a successful `.get` on the same value, so the non-object branch
(where CPython would raise) is never taken by the embedded code. -/
def objSet (j : JVal) (k : String) (v : JVal) : JVal :=
  match j with
  | .obj fields => .obj (setAssoc fields k v)
  | _ => j

/-- Python `value.get(key)` with the implicit `None` default: raises
`AttributeError` unless `value` is a dict. -/
def pyGet (j : JVal) (k : String) : Except PyErr JVal :=
  match j with
  | .obj _ => .ok ((objGet j k).getD .null)
  | _ => .error .attributeError

/-- Python `value.get(key, default)`: raises `AttributeError` unless `value`
is a dict. -/
def pyGetD (j : JVal) (k : String) (d : JVal) : Except PyErr JVal :=
  match j with
  | .obj _ => .ok ((objGet j k).getD d)
  | _ => .error .attributeError

/-- Python `for x in value`: lists yield their elements, dicts their keys,
strings their one-character substrings; other values raise `TypeError`. -/
def pyIter (j : JVal) : Except PyErr (List JVal) :=
  match j with
  | .arr xs => .ok xs
  | .obj fields => .ok (fields.map (fun p => .str p.1))
  | .str s => .ok (s.data.map (fun c => .str (String.mk [c])))
  | _ => .error .typeError

/-- Python `value == "literal"`: only a string compares equal to a string. -/
def pyEqStr (j : JVal) (t : String) : Bool :=
  match j with
  | .str s => s = t
  | _ => false

/-- Python `value == n` for an integer literal `n`; booleans are integers in
Python (`True == 1`). -/
def pyEqInt (j : JVal) (m : ℤ) : Bool :=
  match j with
  | .int n => n = m
  | .bool b => (if b then (1 : ℤ) else 0) = m
  | _ => false

/-- Python truthiness of a JSON-shaped value. -/
def pyTruthy (j : JVal) : Bool :=
  match j with
  | .null => false
  | .bool b => b
  | .int n => n ≠ 0
  | .str s => s ≠ ""
  | .arr xs => !xs.isEmpty
  | .obj fields => !fields.isEmpty

/-- Substring test used by Python `"key" in someString`. -/
def pyStrContains (s key : String) : Bool :=
  if key = "" then true else (s.splitOn key).length > 1

/-- Python `"key" in value`: key membership for dicts, element equality for
lists, substring test for strings; `TypeError` otherwise. -/
def pyContains (j : JVal) (k : String) : Except PyErr Bool :=
  match j with
  | .obj fields => .ok (fields.any (fun p => p.1 = k))
  | .arr xs => .ok (xs.any (fun v => pyEqStr v k))
  | .str s => .ok (pyStrContains s k)
  | _ => .error .typeError

/-- Python subscript `value[key]` with a string key: dict lookup (raising
`KeyError` when absent), `TypeError` for every non-dict value. -/
def pySubscript (j : JVal) (k : String) : Except PyErr JVal :=
  match j with
  | .obj fields =>
      match fields.lookup k with
      | some v => .ok v
      | none => .error (.keyError k)
  | _ => .error .typeError

mutual

/-- Python `repr()` of a JSON-shaped value (string escaping inside the
rendered text is omitted; these strings are only ever used as filesystem
lookup keys). -/
def pyRepr : JVal → String
  | .null => "None"
  | .bool b => if b then "True" else "False"
  | .int n => toString n
  | .str s => "'" ++ s ++ "'"
  | .arr xs => "[" ++ pyReprList xs ++ "]"
  | .obj fields => "\x7b" ++ pyReprFields fields ++ "\x7d"

/-- Comma-separated reprs of the elements of a list. -/
def pyReprList : List JVal → String
  | [] => ""
  | [x] => pyRepr x
  | x :: y :: rest => pyRepr x ++ ", " ++ pyReprList (y :: rest)

/-- Comma-separated `key: value` reprs of the fields of a dict. -/
def pyReprFields : List (String × JVal) → String
  | [] => ""
  | [(k, v)] => "'" ++ k ++ "': " ++ pyRepr v
  | (k, v) :: f :: rest =>
      "'" ++ k ++ "': " ++ pyRepr v ++ ", " ++ pyReprFields (f :: rest)

end

/-- Python `str()` as used by the f-strings building the credential file
names. -/
def pyStrOf : JVal → String
  | .str s => s
  | v => pyRepr v

/-- The characters removed by Python `str.strip()` (ASCII whitespace). -/
def isPySpace (c : Char) : Bool :=
  c == ' ' || c == '\t' || c == '\n' || c == '\r' || c == '\x0b' || c == '\x0c'

/-- Python `str.strip()`: remove leading and trailing whitespace. -/
def pyStrip (s : String) : String :=
  String.mk (((s.data.dropWhile isPySpace).reverse.dropWhile isPySpace).reverse)

/-- Python `round()` at integer precision (round half to even), applied by
the token generator to `time.time() + 120`. -/
def pyRound (q : ℚ) : ℤ :=
  let f : ℤ := ⌊q⌋
  let r : ℚ := q - (f : ℚ)
  if r < 1 / 2 then f
  else if r > 1 / 2 then f + 1
  else if f % 2 = 0 then f else f + 1

/-- The filesystem visible to the process: an association of paths to file
contents.  `os.path.exists` is lookup success; `open(p).read()` returns the
stored content; `open(p, "w")` followed by a dump replaces it. -/
structure FS where
  files : List (String × String)

/-- Content of the file at `p`, if it exists. -/
def FS.lookup (fs : FS) (p : String) : Option String := fs.files.lookup p

/-- `os.path.exists` for a string path. -/
def FS.pathExists (fs : FS) (p : String) : Bool := (fs.lookup p).isSome

/-- Write (create or truncate) the file at `p`. -/
def FS.write (fs : FS) (p : String) (content : String) : FS :=
  ⟨setAssoc fs.files p content⟩

/-- The characters strictly before the last `/` of a character list, or
`none` when there is no `/`. -/
def beforeLastSlash : List Char → Option (List Char)
  | [] => none
  | c :: rest =>
      match beforeLastSlash rest with
      | some tail => some (c :: tail)
      | none => if c = '/' then some [] else none

/-- `os.path.dirname`, POSIX semantics: everything up to the last separator,
with trailing separators stripped unless the result consists only of
separators. -/
def dirname (p : String) : String :=
  match beforeLastSlash p.data with
  | none => ""
  | some l =>
      let head := l ++ ['/']
      if head.all (fun c => c = '/') then String.mk head
      else String.mk ((head.reverse.dropWhile (fun c => c = '/')).reverse)

/-- `os.path.join` for one component, POSIX semantics. -/
def joinPath (b p : String) : String :=
  if p.data.head? = some '/' then p
  else if b = "" then p
  else if b.data.getLast? = some '/' then b ++ p
  else b ++ "/" ++ p

/-- A JWT claim value: the payload built by the source holds one string
claim (`iss`) and one integer claim (`exp`). -/
inductive Claim where
  | str (s : String)
  | int (n : ℤ)

/-- The header and payload dictionaries handed to `jwt.encode`. -/
structure SignReq where
  header : List (String × String)
  payload : List (String × Claim)

/-- External libraries used by the source, as parameters of the model:
`parse` is `json.load` / `json.loads` (`none` = `JSONDecodeError`), `dump`
is `json.dumps(..., indent=4)`, `loadPem` is
`serialization.load_pem_private_key` (`none` = parse exception, `some` an
opaque handle to the parsed key), and `encode` is `jwt.encode` (`none` =
signing exception). -/
structure Env where
  parse : String → Option JVal
  dump : JVal → String
  loadPem : String → Option String
  encode : SignReq → String → Option String

/-- Observable result of one call to `generate_jwt_token`: the returned
value (`none` = Python `None`), the file paths actually read (in order),
the header/payload handed to `jwt.encode` when signing was attempted, and
the clock counter after the call (`time.time()` is consulted exactly when
the payload is built). -/
structure GenResult where
  ret : Option String
  reads : List String
  signReq : Option SignReq
  kNext : ℕ

/-- Embedding of `generate_jwt_token(issuer_path, private_key_path)`:
check that the key file and then the issuer file exist, read and parse the
key, read and trim the issuer, build the RS256 header and the
`iss`/`exp` payload, and sign.  Every failure is caught inside and returns
`None`. -/
def generate_jwt_token (env : Env) (fs : FS) (clock : ℕ → ℚ) (k : ℕ)
    (issuer_path private_key_path : String) : GenResult :=
  match fs.lookup private_key_path with
  | none => ⟨none, [], none, k⟩
  | some keyText =>
    match fs.lookup issuer_path with
    | none => ⟨none, [], none, k⟩
    | some issuerText =>
      match env.loadPem keyText with
      | none => ⟨none, [private_key_path], none, k⟩
      | some key =>
        let issuer_content := pyStrip issuerText
        let req : SignReq :=
          ⟨[("typ", "JWT"), ("alg", "RS256")],
           [("iss", Claim.str issuer_content),
            ("exp", Claim.int (pyRound (clock k + 120)))]⟩
        match env.encode req key with
        | some token =>
            ⟨some token, [private_key_path, issuer_path], some req, k + 1⟩
        | none =>
            ⟨none, [private_key_path, issuer_path], some req, k + 1⟩

/-- Result of processing a single connector dict inside
`update_connector_tokens`: the (possibly token-refreshed) connector, the
clock counter after the step, whether a token was assigned
(`changes_made` contribution), the credential files read, and whether the
missing-username warning was logged. -/
structure ConnResult where
  connector : JVal
  k : ℕ
  changed : Bool
  reads : List String
  warned : Bool

/-- Body of the inner `for connector in link['connectors']` loop of
`update_connector_tokens` for one connector: connectors of type
`zello-channel-api` with a truthy `username` get a freshly generated token
assigned to their `token` field (when generation returns a truthy value);
everything else is left untouched. -/
def updateConnector (env : Env) (fs : FS) (clock : ℕ → ℚ) (baseDir : String)
    (k : ℕ) (connector : JVal) : Except PyErr ConnResult := do
  let t ← pyGet connector "type"
  if pyEqStr t "zello-channel-api" then
    let username ← pyGet connector "username"
    if !pyTruthy username then
      -- "Found 'zello-channel-api' connector without a 'username'. Skipping."
      .ok ⟨connector, k, false, [], true⟩
    else
      let private_key_path := joinPath baseDir (pyStrOf username ++ ".pem")
      let issuer_path := joinPath baseDir (pyStrOf username ++ ".txt")
      let gr := generate_jwt_token env fs clock k issuer_path private_key_path
      match gr.ret with
      | some tok =>
          -- `if new_token:` — Python truthiness, so the empty string does
          -- not count as a generated token.
          if tok ≠ "" then
            .ok ⟨objSet connector "token" (.str tok), gr.kNext, true, gr.reads, false⟩
          else
            .ok ⟨connector, gr.kNext, false, gr.reads, false⟩
      | none => .ok ⟨connector, gr.kNext, false, gr.reads, false⟩
  else
    .ok ⟨connector, k, false, [], false⟩

/-- Result of processing one list of connectors (or of links). -/
structure ConnsResult where
  conns : List JVal
  k : ℕ
  changed : Bool
  reads : List String
  warned : Bool

/-- The inner `for connector in link['connectors']` loop. -/
def updateConnectors (env : Env) (fs : FS) (clock : ℕ → ℚ) (baseDir : String) :
    ℕ → List JVal → Except PyErr ConnsResult
  | k, [] => .ok ⟨[], k, false, [], false⟩
  | k, c :: rest => do
    let r ← updateConnector env fs clock baseDir k c
    let rs ← updateConnectors env fs clock baseDir r.k rest
    .ok ⟨r.connector :: rs.conns, rs.k, r.changed || rs.changed,
         r.reads ++ rs.reads, r.warned || rs.warned⟩

/-- Body of the outer `for link in data['links']` loop for one link:
`if 'connectors' in link and isinstance(link['connectors'], list)` guards
the inner loop; links failing the guard are left untouched. -/
def updateLink (env : Env) (fs : FS) (clock : ℕ → ℚ) (baseDir : String)
    (k : ℕ) (link : JVal) : Except PyErr (JVal × ℕ × Bool × List String × Bool) := do
  let hasC ← pyContains link "connectors"
  if hasC then
    let cv ← pySubscript link "connectors"
    match cv with
    | .arr cs => do
        let rs ← updateConnectors env fs clock baseDir k cs
        .ok (objSet link "connectors" (.arr rs.conns), rs.k, rs.changed, rs.reads, rs.warned)
    | _ => .ok (link, k, false, [], false)
  else .ok (link, k, false, [], false)

/-- The outer `for link in data['links']` loop. -/
def updateLinks (env : Env) (fs : FS) (clock : ℕ → ℚ) (baseDir : String) :
    ℕ → List JVal → Except PyErr (List JVal × ℕ × Bool × List String × Bool)
  | k, [] => .ok ([], k, false, [], false)
  | k, l :: rest => do
    let (l', k', ch, rd, w) ← updateLink env fs clock baseDir k l
    let (ls', k'', ch', rd', w') ← updateLinks env fs clock baseDir k' rest
    .ok (l' :: ls', k'', ch || ch', rd ++ rd', w || w')

/-- Observable result of one call to `update_connector_tokens`: the
filesystem after the call, whether the document was written back
(`changes_made`), and the document handed to `json.dump` when it was. -/
structure MutResult where
  fsOut : FS
  wrote : Bool
  written : Option JVal

/-- Embedding of `update_connector_tokens(file_path)`.  The source first
calls `os.path.exists(file_path)`: for a string path the existence check
and the subsequent `open(...).read()` are both modelled by `FS.lookup`; for
`None` (and any other non-path value that can arrive from
`data.get("config_file")`) `os.path.exists` raises `TypeError`, which no
handler in the source catches.  (CPython would accept an integer as an open
file descriptor; no JSON document in any claim carries a non-string
`config_file`, so that case is folded into the raising branch.)  A file
that parses but is not a dict with a `links` list is logged and left
untouched; otherwise every connector is processed and the document is
rewritten exactly when `changes_made` was set. -/
def update_connector_tokens (env : Env) (fs : FS) (clock : ℕ → ℚ)
    (filePath : JVal) : Except PyErr MutResult :=
  match filePath with
  | .str p =>
    match fs.lookup p with
    | none => .ok ⟨fs, false, none⟩      -- "The file ... was not found."
    | some content =>
      match env.parse content with
      | none => .ok ⟨fs, false, none⟩    -- JSONDecodeError caught: "Error reading the file"
      | some data =>
        -- isinstance(data, dict) and 'links' in data and isinstance(data['links'], list)
        match data with
        | .obj _ =>
          match objGet data "links" with
          | some (.arr links) =>
              let baseDir := dirname p
              match updateLinks env fs clock baseDir 0 links with
              | .error e => .error e
              | .ok (links', _, changed, _, _) =>
                  let data' := objSet data "links" (.arr links')
                  if changed then
                    .ok ⟨fs.write p (env.dump data'), true, some data'⟩
                  else
                    .ok ⟨fs, false, none⟩  -- "No tokens were generated. The file was not modified."
          | _ => .ok ⟨fs, false, none⟩   -- "The JSON structure is not as expected."
        | _ => .ok ⟨fs, false, none⟩
  | _ => .error .typeError

/-- One HTTP response from `GET /status` as seen by the loop: the status
code, the parsed JSON body (`none` when the body is not valid JSON, in
which case `response.json()` raises `requests.exceptions.JSONDecodeError`,
a `RequestException`), and the raw text logged on non-200 codes. -/
structure HttpResponse where
  status : ℤ
  json : Option JVal
  text : String

/-- What one iteration of the `while True` loop in `main` did. -/
structure StepOutcome where
  caughtRequestError : Bool
  loggedNon200 : Bool
  scanned : Bool
  foundError : Bool
  mutatorInvoked : Bool
  mutResult : Option MutResult
  restartAttempted : Bool
  restartStatusLogged : Option ℤ
  fsOut : FS
  sleeps : List ℤ

/-- Result of one loop iteration together with the unhandled exception that
escaped it, if any (the `try` in `main` catches only
`requests.exceptions.RequestException`). -/
structure StepResult where
  outcome : StepOutcome
  err : Option PyErr

/-- Outcome of an iteration that did nothing but the trailing
`time.sleep(1)`. -/
def baseOutcome (fs : FS) : StepOutcome :=
  ⟨false, false, false, false, false, none, false, none, fs, [1]⟩

/-- The check on one connector inside the status scan of `main`: read
`connector.get('last_error', \x7b\x7d).get('code')`, log it, and report
whether it is 3001 or 3002. -/
def scanConnector (c : JVal) : Except PyErr Bool := do
  let t ← pyGet c "type"
  if pyEqStr t "zello-channel-api" then
    let le ← pyGetD c "last_error" (.obj [])
    let code ← pyGet le "code"
    .ok (pyEqInt code 3001 || pyEqInt code 3002)
  else
    .ok false

/-- The inner `for connector in link.get("connectors", [])` loop of the
scan; the source never breaks early, so later connectors are visited (and
can raise) even after a hit. -/
def scanConnectors : List JVal → Except PyErr Bool
  | [] => .ok false
  | c :: rest => do
    let b ← scanConnector c
    let bs ← scanConnectors rest
    .ok (b || bs)

/-- The scan of one link of the snapshot. -/
def scanLink (link : JVal) : Except PyErr Bool := do
  let cv ← pyGetD link "connectors" (.arr [])
  let cs ← pyIter cv
  scanConnectors cs

/-- The outer `for link in data.get("links", [])` loop of the scan. -/
def scanLinks : List JVal → Except PyErr Bool
  | [] => .ok false
  | l :: rest => do
    let b ← scanLink l
    let bs ← scanLinks rest
    .ok (b || bs)

/-- The whole `found_error` computation of `main` on a parsed snapshot. -/
def scanData (data : JVal) : Except PyErr Bool := do
  let lv ← pyGetD data "links" (.arr [])
  let ls ← pyIter lv
  scanLinks ls

/-- One iteration of the `while True` loop in `main`.  `getResult` is the
outcome of `session.get(url + '/status')` (`Except.error` = network or
timeout exception, caught by the outer handler); `restartResult` is the
outcome of `session.put(url + '/restart')`, consulted only when remediation
runs. -/
def step (env : Env) (fs : FS) (clock : ℕ → ℚ)
    (getResult : Except Unit HttpResponse) (restartResult : Except Unit ℤ) :
    StepResult :=
  match getResult with
  | .error _ => ⟨{ baseOutcome fs with caughtRequestError := true }, none⟩
  | .ok resp =>
    if resp.status = 200 then
      match resp.json with
      | none => ⟨{ baseOutcome fs with caughtRequestError := true }, none⟩
      | some data =>
        match pyGet data "config_file" with
        | .error e => ⟨baseOutcome fs, some e⟩
        | .ok configPath =>
          match scanData data with
          | .error e => ⟨baseOutcome fs, some e⟩
          | .ok found =>
            if found then
              match update_connector_tokens env fs clock configPath with
              | .error e =>
                  ⟨{ baseOutcome fs with
                      scanned := true
                      foundError := true
                      mutatorInvoked := true }, some e⟩
              | .ok mr =>
                  let o := { baseOutcome mr.fsOut with
                              scanned := true
                              foundError := true
                              mutatorInvoked := true
                              mutResult := some mr
                              restartAttempted := true
                              sleeps := [60, 1] }
                  match restartResult with
                  | .ok s => ⟨{ o with restartStatusLogged := some s }, none⟩
                  | .error _ => ⟨o, none⟩
            else
              ⟨{ baseOutcome fs with scanned := true }, none⟩
    else
      ⟨{ baseOutcome fs with loggedNon200 := true }, none⟩

/-! ## Spec-side predicates for the status scan

These transcribe the spec sentence "at least one connector with type
`zello-channel-api` has `last_error.code` equal to 3001 or 3002" as total
functions over a snapshot, to be compared with the scan the code performs. -/

/-- A connector reports the fatal failure signature: its `type` is
`zello-channel-api` and its `last_error.code` is 3001 or 3002 (an absent
`last_error` counts as no error). -/
def specConnectorFatal (c : JVal) : Bool :=
  match c with
  | .obj _ =>
      pyEqStr ((objGet c "type").getD .null) "zello-channel-api" &&
      (match (objGet c "last_error").getD (.obj []) with
       | .obj lf =>
           pyEqInt ((objGet (.obj lf) "code").getD .null) 3001 ||
           pyEqInt ((objGet (.obj lf) "code").getD .null) 3002
       | _ => false)
  | _ => false

/-- The connectors of one link of a snapshot (empty for any shape the scan
would not walk). -/
def linkConnectors (link : JVal) : List JVal :=
  match link with
  | .obj _ =>
      match (objGet link "connectors").getD (.arr []) with
      | .arr cs => cs
      | _ => []
  | _ => []

/-- One link contains a connector with the fatal signature. -/
def specLinkFatal (link : JVal) : Bool :=
  (linkConnectors link).any specConnectorFatal

/-- All connectors of a snapshot, across all links. -/
def snapshotConnectors (data : JVal) : List JVal :=
  match data with
  | .obj _ =>
      match (objGet data "links").getD (.arr []) with
      | .arr ls => ls.flatMap linkConnectors
      | _ => []
  | _ => []

/-- The snapshot contains at least one connector with the fatal failure
signature. -/
def snapshotHasFatal (data : JVal) : Bool :=
  match data with
  | .obj _ =>
      match (objGet data "links").getD (.arr []) with
      | .arr ls => ls.any specLinkFatal
      | _ => false
  | _ => false

theorem snapshotHasFatal_iff (d : JVal) :
    snapshotHasFatal d = true ↔
      ∃ c ∈ snapshotConnectors d, specConnectorFatal c = true := by
  cases d with
  | obj fields =>
      unfold snapshotHasFatal snapshotConnectors
      cases hlv : (objGet (.obj fields) "links").getD (.arr []) <;>
        simp [specLinkFatal, List.any_eq_true, List.mem_flatMap]
      tauto
  | null => simp [snapshotHasFatal, snapshotConnectors]
  | bool b => simp [snapshotHasFatal, snapshotConnectors]
  | int n => simp [snapshotHasFatal, snapshotConnectors]
  | str s => simp [snapshotHasFatal, snapshotConnectors]
  | arr xs => simp [snapshotHasFatal, snapshotConnectors]

/-! ## Agreement of the scan with the spec-side predicates -/

theorem scanConnector_ok {c : JVal} {b : Bool} (h : scanConnector c = .ok b) :
    b = specConnectorFatal c := by
  cases c with
  | obj fields =>
      unfold scanConnector at h
      simp [pyGet, pyGetD, ok_bind, error_bind] at h
      unfold specConnectorFatal
      by_cases hty :
          pyEqStr ((objGet (.obj fields) "type").getD .null) "zello-channel-api"
      · simp [hty] at h ⊢
        cases hle : (objGet (.obj fields) "last_error").getD (.obj []) with
        | obj lf => simp [hle, pyGet, ok_bind, error_bind] at h; simp [h]
        | null => simp [hle, pyGet, ok_bind, error_bind] at h
        | bool x => simp [hle, pyGet, ok_bind, error_bind] at h
        | int x => simp [hle, pyGet, ok_bind, error_bind] at h
        | str x => simp [hle, pyGet, ok_bind, error_bind] at h
        | arr x => simp [hle, pyGet, ok_bind, error_bind] at h
      · simp [hty] at h ⊢
        exact h
  | null => simp [scanConnector, pyGet, ok_bind, error_bind] at h
  | bool x => simp [scanConnector, pyGet, ok_bind, error_bind] at h
  | int x => simp [scanConnector, pyGet, ok_bind, error_bind] at h
  | str x => simp [scanConnector, pyGet, ok_bind, error_bind] at h
  | arr x => simp [scanConnector, pyGet, ok_bind, error_bind] at h

theorem scanConnectors_ok {cs : List JVal} {b : Bool}
    (h : scanConnectors cs = .ok b) : b = cs.any specConnectorFatal := by
  induction cs generalizing b with
  | nil => simp [scanConnectors] at h; simp [h]
  | cons c rest ih =>
      unfold scanConnectors at h
      cases hc : scanConnector c with
      | error e => simp [hc, ok_bind, error_bind] at h
      | ok bc =>
          cases hr : scanConnectors rest with
          | error e => simp [hc, hr, ok_bind, error_bind] at h
          | ok br =>
              simp [hc, hr, ok_bind, error_bind] at h
              subst h
              simp [scanConnector_ok hc, ih hr, List.any_cons]

theorem scanLink_ok {l : JVal} {b : Bool} (h : scanLink l = .ok b) :
    b = specLinkFatal l := by
  cases l with
  | obj fields =>
      unfold scanLink at h
      simp [pyGetD, ok_bind, error_bind] at h
      unfold specLinkFatal linkConnectors
      cases hcv : (objGet (.obj fields) "connectors").getD (.arr []) with
      | arr cs =>
          simp [hcv, pyIter, ok_bind, error_bind] at h
          simp [scanConnectors_ok h]
      | obj lf =>
          cases lf with
          | nil => simp [hcv, pyIter, ok_bind, error_bind, scanConnectors] at h; simp [h]
          | cons f rest =>
              simp [hcv, pyIter, ok_bind, error_bind, scanConnectors, scanConnector,
                pyGet] at h
      | str s =>
          cases hs : s.data with
          | nil =>
              simp [hcv, pyIter, ok_bind, error_bind, hs, scanConnectors] at h
              simp [h]
          | cons ch rest =>
              simp [hcv, pyIter, ok_bind, error_bind, hs, scanConnectors,
                scanConnector, pyGet] at h
      | null => simp [hcv, pyIter, ok_bind, error_bind] at h
      | bool x => simp [hcv, pyIter, ok_bind, error_bind] at h
      | int x => simp [hcv, pyIter, ok_bind, error_bind] at h
  | null => simp [scanLink, pyGetD, ok_bind, error_bind] at h
  | bool x => simp [scanLink, pyGetD, ok_bind, error_bind] at h
  | int x => simp [scanLink, pyGetD, ok_bind, error_bind] at h
  | str x => simp [scanLink, pyGetD, ok_bind, error_bind] at h
  | arr x => simp [scanLink, pyGetD, ok_bind, error_bind] at h

theorem scanLinks_ok {ls : List JVal} {b : Bool}
    (h : scanLinks ls = .ok b) : b = ls.any specLinkFatal := by
  induction ls generalizing b with
  | nil => simp [scanLinks] at h; simp [h]
  | cons l rest ih =>
      unfold scanLinks at h
      cases hl : scanLink l with
      | error e => simp [hl, ok_bind, error_bind] at h
      | ok bl =>
          cases hr : scanLinks rest with
          | error e => simp [hl, hr, ok_bind, error_bind] at h
          | ok br =>
              simp [hl, hr, ok_bind, error_bind] at h
              subst h
              simp [scanLink_ok hl, ih hr, List.any_cons]

theorem scanData_ok {d : JVal} {b : Bool} (h : scanData d = .ok b) :
    b = snapshotHasFatal d := by
  cases d with
  | obj fields =>
      unfold scanData at h
      simp [pyGetD, ok_bind, error_bind] at h
      unfold snapshotHasFatal
      cases hlv : (objGet (.obj fields) "links").getD (.arr []) with
      | arr ls =>
          simp [hlv, pyIter, ok_bind, error_bind] at h
          simp [scanLinks_ok h]
      | obj lf =>
          cases lf with
          | nil => simp [hlv, pyIter, ok_bind, error_bind, scanLinks] at h; simp [h]
          | cons f rest =>
              simp [hlv, pyIter, ok_bind, error_bind, scanLinks, scanLink,
                pyGetD] at h
      | str s =>
          cases hs : s.data with
          | nil =>
              simp [hlv, pyIter, ok_bind, error_bind, hs, scanLinks] at h
              simp [h]
          | cons ch rest =>
              simp [hlv, pyIter, ok_bind, error_bind, hs, scanLinks, scanLink,
                pyGetD] at h
      | null => simp [hlv, pyIter, ok_bind, error_bind] at h
      | bool x => simp [hlv, pyIter, ok_bind, error_bind] at h
      | int x => simp [hlv, pyIter, ok_bind, error_bind] at h
  | null => simp [scanData, pyGetD, ok_bind, error_bind] at h
  | bool x => simp [scanData, pyGetD, ok_bind, error_bind] at h
  | int x => simp [scanData, pyGetD, ok_bind, error_bind] at h
  | str x => simp [scanData, pyGetD, ok_bind, error_bind] at h
  | arr x => simp [scanData, pyGetD, ok_bind, error_bind] at h

/-! ## C1: remediation triggers exactly on the 3001/3002 failure signature -/

/-- C1.  In an iteration that received a 200 response with a parseable body
and raised no exception, the watchdog transitions to Remediating — invoking
the config mutator and then the restart request — if and only if the status
snapshot contains at least one connector of type `zello-channel-api` whose
`last_error.code` equals 3001 or 3002; any other code, or an absent
`last_error`, never triggers remediation. -/
theorem remediating_iff_fatal_code
    (env : Env) (fs : FS) (clock : ℕ → ℚ) (resp : HttpResponse)
    (rr : Except Unit ℤ) (data : JVal) (o : StepOutcome)
    (hstatus : resp.status = 200) (hjson : resp.json = some data)
    (hstep : step env fs clock (.ok resp) rr = ⟨o, none⟩) :
    (o.mutatorInvoked = true ∧ o.restartAttempted = true) ↔
      ∃ c ∈ snapshotConnectors data, specConnectorFatal c = true := by
  rw [← snapshotHasFatal_iff]
  simp only [step, hstatus, hjson, if_true, eq_self_iff_true] at hstep
  cases hcfg : pyGet data "config_file" with
  | error e => simp [hcfg] at hstep
  | ok configPath =>
      cases hscan : scanData data with
      | error e => simp [hcfg, hscan] at hstep
      | ok found =>
          have hfound := scanData_ok hscan
          cases found with
          | false =>
              simp only [hcfg, hscan, ok_bind, error_bind,
                Bool.false_eq_true, if_false] at hstep
              rw [StepResult.mk.injEq] at hstep
              obtain ⟨ho, -⟩ := hstep
              subst ho
              rw [← hfound]
              simp [baseOutcome]
          | true =>
              cases hupd : update_connector_tokens env fs clock configPath with
              | error e => simp [hcfg, hscan, hupd] at hstep
              | ok mr =>
                  cases rr with
                  | ok s =>
                      simp only [hcfg, hscan, hupd, if_true] at hstep
                      rw [StepResult.mk.injEq] at hstep
                      obtain ⟨ho, -⟩ := hstep
                      subst ho
                      rw [← hfound]
                      simp [baseOutcome]
                  | error u =>
                      simp only [hcfg, hscan, hupd, if_true] at hstep
                      rw [StepResult.mk.injEq] at hstep
                      obtain ⟨ho, -⟩ := hstep
                      subst ho
                      rw [← hfound]
                      simp [baseOutcome]

/-! ## Concrete fixtures used by witnesses and counterexamples -/

/-- A connector reporting error code 3001. -/
def fatalConn : JVal :=
  .obj [("type", .str "zello-channel-api"), ("name", .str "chan"),
        ("last_error", .obj [("code", .int 3001)])]

/-- A status snapshot with one fatal connector and a `config_file` path. -/
def data0 : JVal :=
  .obj [("config_file", .str "etc/bridge.json"),
        ("links", .arr [.obj [("connectors", .arr [fatalConn])]])]

/-- An environment whose codec knows one configuration document (with an
empty `links` list) and whose crypto always succeeds. -/
def env0 : Env :=
  ⟨fun s => if s = "CFG" then some (.obj [("links", .arr [])]) else none,
   fun _ => "OUT", fun _ => some "KEY", fun _ _ => some "TOKEN"⟩

/-- A filesystem holding just that configuration document. -/
def fs0 : FS := ⟨[("etc/bridge.json", "CFG")]⟩

/-- A constant clock. -/
def clock0 : ℕ → ℚ := fun _ => 1000

/-- A 200 response carrying `data0`. -/
def resp0 : HttpResponse := ⟨200, some data0, ""⟩

/-- Witness for C1: on a concrete 200 snapshot containing a 3001 connector
the iteration invokes the mutator and the restart request. -/
theorem remediating_iff_fatal_code_witness :
    (step env0 fs0 clock0 (.ok resp0) (.ok 200)).outcome.mutatorInvoked = true ∧
    (step env0 fs0 clock0 (.ok resp0) (.ok 200)).outcome.restartAttempted = true := by
  have h := remediating_iff_fatal_code env0 fs0 clock0 resp0 (.ok 200) data0
      ((step env0 fs0 clock0 (.ok resp0) (.ok 200)).outcome) rfl rfl rfl
  refine h.mpr ⟨fatalConn, ?_, ?_⟩
  · rw [show snapshotConnectors data0 = [fatalConn] from rfl]
    exact List.mem_singleton.mpr rfl
  · rfl

/-! ## C2: an unhandled exception can escape the loop -/

/-- A 200 snapshot with a fatal connector but no `config_file` field. -/
def dataNoCfg : JVal :=
  .obj [("links", .arr [.obj [("connectors", .arr [fatalConn])]])]

/-- The 200 response carrying it. -/
def respNoCfg : HttpResponse := ⟨200, some dataNoCfg, ""⟩

/-- C2 fails on the code: a 200 response whose body lacks `config_file`
but contains a 3001 connector makes the iteration call
`update_connector_tokens(None)`; `os.path.exists(None)` raises `TypeError`,
which the loop's handler (catching only
`requests.exceptions.RequestException`) does not catch, so the iteration
ends with an unhandled exception instead of logging and continuing. -/
theorem step_crashes_on_missing_config_path :
    (step env0 fs0 clock0 (.ok respNoCfg) (.ok 200)).err =
      some PyErr.typeError := rfl

/-! ## C3: only status code exactly 200 is parsed -/

/-- A 201 response carrying the same well-formed snapshot as `resp0`. -/
def resp201 : HttpResponse := ⟨201, some data0, "Created"⟩

/-- Counterexample to C3 as stated: 201 is a 2xx status, yet the iteration
does not parse or scan the snapshot — it takes the failure branch that logs
the status code and body. -/
theorem status_201_not_scanned :
    ((200 : ℤ) ≤ 201 ∧ (201 : ℤ) < 300) ∧
    step env0 fs0 clock0 (.ok resp201) (.ok 200) =
      ⟨{ baseOutcome fs0 with loggedNon200 := true }, none⟩ :=
  ⟨by decide, rfl⟩

/-- C3 amended: the successful branch requires the status code to be
exactly 200 (other 2xx codes included); every response with any other
status code is logged with its body, triggers no remediation and leaves
the iteration in Polling, while a 200 response with a parseable body is
parsed and its connectors scanned. -/
theorem only_200_parsed
    (env : Env) (fs : FS) (clock : ℕ → ℚ) (resp : HttpResponse)
    (rr : Except Unit ℤ) :
    (resp.status ≠ 200 →
      step env fs clock (.ok resp) rr =
        ⟨{ baseOutcome fs with loggedNon200 := true }, none⟩) ∧
    (∀ data, resp.status = 200 → resp.json = some data →
      (step env fs clock (.ok resp) rr).err = none →
      (step env fs clock (.ok resp) rr).outcome.scanned = true ∧
      (step env fs clock (.ok resp) rr).outcome.loggedNon200 = false) := by
  constructor
  · intro hne
    simp only [step, if_neg hne]
  · intro data hstatus hjson herr
    simp only [step, hstatus, hjson, if_true, eq_self_iff_true] at herr ⊢
    cases hcfg : pyGet data "config_file" with
    | error e => simp [hcfg] at herr
    | ok configPath =>
        cases hscan : scanData data with
        | error e => simp [hcfg, hscan] at herr
        | ok found =>
            cases found with
            | false =>
                simp [hcfg, hscan, baseOutcome]
            | true =>
                cases hupd : update_connector_tokens env fs clock configPath with
                | error e => simp [hcfg, hscan, hupd] at herr
                | ok mr =>
                    cases rr with
                    | ok s => simp [hcfg, hscan, hupd, baseOutcome]
                    | error u => simp [hcfg, hscan, hupd, baseOutcome]

/-- Witness for the amended C3, at a 201 response and at a 200 response. -/
theorem only_200_parsed_witness :
    step env0 fs0 clock0 (.ok resp201) (.ok 200) =
      ⟨{ baseOutcome fs0 with loggedNon200 := true }, none⟩ ∧
    (step env0 fs0 clock0 (.ok resp0) (.ok 200)).outcome.scanned = true := by
  constructor
  · exact (only_200_parsed env0 fs0 clock0 resp201 (.ok 200)).1 (by decide)
  · exact ((only_200_parsed env0 fs0 clock0 resp0 (.ok 200)).2 data0 rfl rfl
      rfl).1

/-! ## C5 and C7: the token generator -/

/-- C5.  Whenever `generate_jwt_token` returns a token, the header and the
payload it handed to `jwt.encode` are exactly the dictionaries built by the
source: a header declaring type JWT and algorithm RS256, and a payload with
exactly two claims — `iss`, the whitespace-trimmed content of the issuer
file, and `exp`, the generation time plus 120 seconds rounded to integer
seconds. -/
theorem token_payload_exactly_two_claims
    (env : Env) (fs : FS) (clock : ℕ → ℚ) (k : ℕ) (ip kp tok : String)
    (h : (generate_jwt_token env fs clock k ip kp).ret = some tok) :
    ∃ issuerText, fs.lookup ip = some issuerText ∧
      (generate_jwt_token env fs clock k ip kp).signReq =
        some ⟨[("typ", "JWT"), ("alg", "RS256")],
              [("iss", Claim.str (pyStrip issuerText)),
               ("exp", Claim.int (pyRound (clock k + 120)))]⟩ := by
  cases hkp : fs.lookup kp with
  | none => simp [generate_jwt_token, hkp] at h
  | some keyText =>
      cases hip : fs.lookup ip with
      | none => simp [generate_jwt_token, hkp, hip] at h
      | some issuerText =>
          cases hpem : env.loadPem keyText with
          | none => simp [generate_jwt_token, hkp, hip, hpem] at h
          | some key =>
              refine ⟨issuerText, rfl, ?_⟩
              simp only [generate_jwt_token, hkp, hip, hpem]
              cases henc : env.encode
                  ⟨[("typ", "JWT"), ("alg", "RS256")],
                   [("iss", Claim.str (pyStrip issuerText)),
                    ("exp", Claim.int (pyRound (clock k + 120)))]⟩ key with
              | none => simp [henc]
              | some t => simp [henc]

/-- A filesystem holding one pair of credential files; the issuer file
content has surrounding whitespace to exercise the trimming. -/
def fsGen : FS := ⟨[("etc/u.pem", "PEM"), ("etc/u.txt", " ISS\n")]⟩

/-- Witness for C5 at a concrete successful generation. -/
theorem token_payload_exactly_two_claims_witness :
    ∃ issuerText, fsGen.lookup "etc/u.txt" = some issuerText ∧
      (generate_jwt_token env0 fsGen clock0 0 "etc/u.txt" "etc/u.pem").signReq =
        some ⟨[("typ", "JWT"), ("alg", "RS256")],
              [("iss", Claim.str (pyStrip issuerText)),
               ("exp", Claim.int (pyRound (clock0 0 + 120)))]⟩ :=
  token_payload_exactly_two_claims env0 fsGen clock0 0 "etc/u.txt" "etc/u.pem"
    "TOKEN" rfl

/-- C7.  When the private-key path does not exist the generator returns the
failure value immediately: nothing is returned, no file (in particular not
the issuer file) is read, no signing is attempted, and the clock is never
consulted.  The result is fully determined, so the behaviour is
deterministic. -/
theorem missing_key_no_signing
    (env : Env) (fs : FS) (clock : ℕ → ℚ) (k : ℕ) (ip kp : String)
    (h : fs.lookup kp = none) :
    generate_jwt_token env fs clock k ip kp = ⟨none, [], none, k⟩ := by
  unfold generate_jwt_token
  rw [h]

/-- Witness for C7 at a concrete missing key path. -/
theorem missing_key_no_signing_witness :
    generate_jwt_token env0 fs0 clock0 0 "etc/u.txt" "missing.pem" =
      ⟨none, [], none, 0⟩ :=
  missing_key_no_signing env0 fs0 clock0 0 "etc/u.txt" "missing.pem" rfl

/-! ## C9: documents without a links sequence are left untouched -/

/-- The guard `isinstance(data, dict) and 'links' in data and
isinstance(data['links'], list)` as a predicate on the parsed
document. -/
def linksShapeOk (d : JVal) : Bool :=
  match d with
  | .obj _ =>
      match objGet d "links" with
      | some (.arr _) => true
      | _ => false
  | _ => false

/-- C9.  A configuration file that parses but is not a mapping with a
`links` sequence makes the mutator log and return with the filesystem
exactly as it was: no write happens and the file stays byte-identical. -/
theorem bad_shape_leaves_file_untouched
    (env : Env) (fs : FS) (clock : ℕ → ℚ) (p content : String) (data : JVal)
    (hlook : fs.lookup p = some content)
    (hparse : env.parse content = some data)
    (hshape : linksShapeOk data = false) :
    update_connector_tokens env fs clock (.str p) = .ok ⟨fs, false, none⟩ := by
  simp only [update_connector_tokens, hlook, hparse]
  cases data with
  | obj dfields =>
      unfold linksShapeOk at hshape
      cases hlv : objGet (.obj dfields) "links" with
      | none => simp [hlv]
      | some v =>
          rw [hlv] at hshape
          cases v with
          | arr ls => simp at hshape
          | null => simp [hlv]
          | bool x => simp [hlv]
          | int x => simp [hlv]
          | str x => simp [hlv]
          | obj x => simp [hlv]
  | null => rfl
  | bool x => rfl
  | int x => rfl
  | str x => rfl
  | arr x => rfl

/-- A parseable document whose top level is a list, not a mapping. -/
def envBad : Env :=
  ⟨fun s => if s = "BAD" then some (.arr [.int 1]) else none,
   fun _ => "OUT", fun _ => some "KEY", fun _ _ => some "TOKEN"⟩

/-- The filesystem holding it. -/
def fsBad : FS := ⟨[("etc/bridge.json", "BAD")]⟩

/-- Witness for C9 at a concrete non-mapping document. -/
theorem bad_shape_leaves_file_untouched_witness :
    update_connector_tokens envBad fsBad clock0 (.str "etc/bridge.json") =
      .ok ⟨fsBad, false, none⟩ :=
  bad_shape_leaves_file_untouched envBad fsBad clock0 "etc/bridge.json" "BAD"
    (.arr [.int 1]) rfl rfl rfl

/-! ## C10: an empty username is treated like an absent one -/

/-- Remove every binding of key `k` from a dict's fields. -/
def removeField (flds : List (String × JVal)) (k : String) :
    List (String × JVal) :=
  flds.filter (fun p => p.1 != k)

theorem lookup_removeField_ne (flds : List (String × JVal)) (k k0 : String)
    (h : k ≠ k0) : (removeField flds k0).lookup k = flds.lookup k := by
  induction flds with
  | nil => rfl
  | cons f t ih =>
      obtain ⟨k1, v1⟩ := f
      unfold removeField at ih ⊢
      by_cases h1 : k1 = k0
      · have hk : (k == k0) = false := beq_eq_false_iff_ne.mpr h
        simp only [List.filter_cons, h1, bne_self_eq_false,
          Bool.false_eq_true, if_false, List.lookup, hk]
        exact ih
      · have hne : (k1 != k0) = true := bne_iff_ne.mpr h1
        simp only [List.filter_cons, hne, if_true, List.lookup]
        by_cases hk : k = k1
        · simp [hk]
        · simp only [beq_eq_false_iff_ne.mpr hk]
          exact ih

theorem lookup_removeField_self (flds : List (String × JVal)) (k : String) :
    (removeField flds k).lookup k = none := by
  induction flds with
  | nil => rfl
  | cons f t ih =>
      obtain ⟨k1, v1⟩ := f
      unfold removeField at ih ⊢
      by_cases h1 : k1 = k
      · simp only [List.filter_cons, h1, bne_self_eq_false,
          Bool.false_eq_true, if_false]
        exact ih
      · have hne : (k1 != k) = true := bne_iff_ne.mpr h1
        have hk : (k == k1) = false := beq_eq_false_iff_ne.mpr (Ne.symm h1)
        simp only [List.filter_cons, hne, if_true, List.lookup, hk]
        exact ih

/-- C10.  A `zello-channel-api` connector whose `username` field holds the
empty string is treated exactly like one with no `username` at all: it is
skipped with the warning, its fields (`token` included) are returned
unchanged, no credential file is read and the clock is not consulted, and
the remaining connectors of the pass are still processed. -/
theorem empty_username_skipped
    (env : Env) (fs : FS) (clock : ℕ → ℚ) (bd : String) (k : ℕ)
    (flds : List (String × JVal))
    (hty : objGet (.obj flds) "type" = some (.str "zello-channel-api"))
    (hu : objGet (.obj flds) "username" = some (.str "")) :
    updateConnector env fs clock bd k (.obj flds) =
      .ok ⟨.obj flds, k, false, [], true⟩ ∧
    updateConnector env fs clock bd k (.obj (removeField flds "username")) =
      .ok ⟨.obj (removeField flds "username"), k, false, [], true⟩ ∧
    ∀ rest rs, updateConnectors env fs clock bd k rest = .ok rs →
      updateConnectors env fs clock bd k (.obj flds :: rest) =
        .ok ⟨.obj flds :: rs.conns, rs.k, rs.changed, rs.reads, true⟩ := by
  have h1 : updateConnector env fs clock bd k (.obj flds) =
      .ok ⟨.obj flds, k, false, [], true⟩ := by
    simp [updateConnector, pyGet, hty, hu, pyEqStr, pyTruthy, ok_bind]
  refine ⟨h1, ?_, ?_⟩
  · have hty2 : objGet (.obj (removeField flds "username")) "type" =
        some (.str "zello-channel-api") := by
      simpa [objGet, lookup_removeField_ne flds "type" "username"
        (by decide)] using hty
    have hu2 : objGet (.obj (removeField flds "username")) "username" =
        none := by
      simp [objGet, lookup_removeField_self]
    simp [updateConnector, pyGet, hty2, hu2, pyEqStr, pyTruthy, ok_bind]
  · intro rest rs hrest
    simp [updateConnectors, h1, hrest, ok_bind]

/-- Connector fields with an empty username. -/
def emptyUserFields : List (String × JVal) :=
  [("type", .str "zello-channel-api"), ("username", .str ""),
   ("token", .str "OLD")]

/-- Witness for C10 at a concrete connector with an empty username. -/
theorem empty_username_skipped_witness :
    updateConnector env0 fs0 clock0 "etc" 0 (.obj emptyUserFields) =
      .ok ⟨.obj emptyUserFields, 0, false, [], true⟩ ∧
    updateConnectors env0 fs0 clock0 "etc" 0 [.obj emptyUserFields] =
      .ok ⟨[.obj emptyUserFields], 0, false, [], true⟩ := by
  have h := empty_username_skipped env0 fs0 clock0 "etc" 0 emptyUserFields
    rfl rfl
  exact ⟨h.1, h.2.2 [] ⟨[], 0, false, [], false⟩ rfl⟩

/-! ## Association-list lemmas shared by the mutator claims -/

theorem lookup_setAssoc_self {β : Type} (l : List (String × β)) (k : String)
    (v : β) : (setAssoc l k v).lookup k = some v := by
  induction l with
  | nil => simp [setAssoc, List.lookup]
  | cons f t ih =>
      obtain ⟨k1, v1⟩ := f
      by_cases h : k1 = k
      · simp [setAssoc, h, List.lookup]
      · have hk : (k == k1) = false := beq_eq_false_iff_ne.mpr (Ne.symm h)
        simp only [setAssoc, h, if_false, List.lookup, hk]
        exact ih

theorem lookup_setAssoc_ne {β : Type} (l : List (String × β)) (k k0 : String)
    (v : β) (h : k0 ≠ k) :
    (setAssoc l k v).lookup k0 = l.lookup k0 := by
  have hk : (k0 == k) = false := beq_eq_false_iff_ne.mpr h
  induction l with
  | nil => simp [setAssoc, List.lookup, hk]
  | cons f t ih =>
      obtain ⟨k1, v1⟩ := f
      by_cases h1 : k1 = k
      · subst h1
        simp [setAssoc, List.lookup, hk]
      · simp only [setAssoc, h1, if_false, List.lookup]
        by_cases h0 : k0 = k1
        · simp [h0]
        · have hk0 : (k0 == k1) = false := beq_eq_false_iff_ne.mpr h0
          simp only [hk0]
          exact ih

theorem removeField_setAssoc (flds : List (String × JVal)) (k : String)
    (v : JVal) : removeField (setAssoc flds k v) k = removeField flds k := by
  induction flds with
  | nil => simp [setAssoc, removeField, List.filter_cons]
  | cons f t ih =>
      obtain ⟨k1, v1⟩ := f
      by_cases h1 : k1 = k
      · subst h1
        simp [setAssoc, removeField, List.filter_cons]
      · have hne : (k1 != k) = true := bne_iff_ne.mpr h1
        simp only [setAssoc, h1, if_false, removeField, List.filter_cons, hne,
          if_true] at ih ⊢
        rw [ih]

theorem setAssoc_setAssoc {β : Type} (l : List (String × β)) (k : String)
    (v w : β) : setAssoc (setAssoc l k v) k w = setAssoc l k w := by
  induction l with
  | nil => simp [setAssoc]
  | cons f t ih =>
      obtain ⟨k1, v1⟩ := f
      by_cases h1 : k1 = k
      · simp [setAssoc, h1]
      · simp only [setAssoc, h1, if_false]
        rw [ih]

theorem lookup_isSome_eq_any (flds : List (String × JVal)) (k : String) :
    (List.lookup k flds).isSome = flds.any (fun p => p.1 = k) := by
  induction flds with
  | nil => simp [List.lookup]
  | cons f t ih =>
      obtain ⟨k1, v1⟩ := f
      by_cases h : k = k1
      · simp [List.lookup, h, List.any_cons]
      · have hk : (k == k1) = false := beq_eq_false_iff_ne.mpr h
        simp only [List.lookup, hk, List.any_cons, ih]
        simp [Ne.symm h]

/-! ## The token-refresh view of one mutator pass

`refreshConn`/`refreshLinks` walk the document exactly as the mutator does
but record only whether the token generator returned a (truthy) token for
some eligible connector, and how the `time.time()` counter advances.  They
mention no mutation or write: they characterize when the pass sets
`changes_made`. -/

/-- The `username` value of a connector dict (`None` when absent). -/
def usernameOf (c : JVal) : JVal := (objGet c "username").getD .null

/-- Path of the private-key file for a connector, per the fixed
`{baseDir}/{username}.pem` convention. -/
def keyPathFor (bd : String) (c : JVal) : String :=
  joinPath bd (pyStrOf (usernameOf c) ++ ".pem")

/-- Path of the issuer file for a connector
(`{baseDir}/{username}.txt`). -/
def issuerPathFor (bd : String) (c : JVal) : String :=
  joinPath bd (pyStrOf (usernameOf c) ++ ".txt")

/-- The generator call the mutator would make for a connector. -/
def genFor (env : Env) (fs : FS) (clock : ℕ → ℚ) (bd : String) (k : ℕ)
    (c : JVal) : GenResult :=
  generate_jwt_token env fs clock k (issuerPathFor bd c) (keyPathFor bd c)

/-- Whether processing one connector generates (and would assign) a token,
together with the clock counter after it. -/
def refreshConn (env : Env) (fs : FS) (clock : ℕ → ℚ) (bd : String) (k : ℕ)
    (c : JVal) : Bool × ℕ :=
  match c with
  | .obj _ =>
      if pyEqStr ((objGet c "type").getD .null) "zello-channel-api" then
        if pyTruthy (usernameOf c) then
          let gr := genFor env fs clock bd k c
          (match gr.ret with
           | some tok => tok != ""
           | none => false, gr.kNext)
        else (false, k)
      else (false, k)
  | _ => (false, k)

/-- Fold of `refreshConn` over a connector list. -/
def refreshConns (env : Env) (fs : FS) (clock : ℕ → ℚ) (bd : String) :
    ℕ → List JVal → Bool × ℕ
  | k, [] => (false, k)
  | k, c :: cs =>
      let r := refreshConn env fs clock bd k c
      let rs := refreshConns env fs clock bd r.2 cs
      (r.1 || rs.1, rs.2)

/-- Whether processing one link generates a token somewhere. -/
def refreshLink (env : Env) (fs : FS) (clock : ℕ → ℚ) (bd : String) (k : ℕ)
    (link : JVal) : Bool × ℕ :=
  match link with
  | .obj _ =>
      match objGet link "connectors" with
      | some (.arr cs) => refreshConns env fs clock bd k cs
      | _ => (false, k)
  | _ => (false, k)

/-- Fold of `refreshLink` over the links of a document. -/
def refreshLinks (env : Env) (fs : FS) (clock : ℕ → ℚ) (bd : String) :
    ℕ → List JVal → Bool × ℕ
  | k, [] => (false, k)
  | k, l :: ls =>
      let r := refreshLink env fs clock bd k l
      let rs := refreshLinks env fs clock bd r.2 ls
      (r.1 || rs.1, rs.2)

theorem updateConnector_changed {env : Env} {fs : FS} {clock : ℕ → ℚ}
    {bd : String} {k : ℕ} {c : JVal} {r : ConnResult}
    (h : updateConnector env fs clock bd k c = .ok r) :
    r.changed = (refreshConn env fs clock bd k c).1 ∧
    r.k = (refreshConn env fs clock bd k c).2 := by
  cases c with
  | obj flds =>
      simp only [updateConnector, pyGet, ok_bind] at h
      by_cases hty :
          pyEqStr ((objGet (.obj flds) "type").getD .null) "zello-channel-api"
      · simp only [hty, if_true] at h
        by_cases hu : pyTruthy ((objGet (.obj flds) "username").getD .null)
        · simp only [hu, Bool.not_true, Bool.false_eq_true, if_false] at h
          unfold refreshConn
          simp only [hty, if_true, usernameOf, hu]
          cases hret : (generate_jwt_token env fs clock k
              (joinPath bd
                (pyStrOf ((objGet (.obj flds) "username").getD .null) ++ ".txt"))
              (joinPath bd
                (pyStrOf ((objGet (.obj flds) "username").getD .null) ++ ".pem"))).ret with
          | none =>
              rw [hret] at h
              rw [show genFor env fs clock bd k (.obj flds) =
                  generate_jwt_token env fs clock k
                    (joinPath bd
                      (pyStrOf ((objGet (.obj flds) "username").getD .null) ++ ".txt"))
                    (joinPath bd
                      (pyStrOf ((objGet (.obj flds) "username").getD .null) ++ ".pem"))
                from rfl, hret]
              cases h
              simp
          | some tok =>
              rw [hret] at h
              rw [show genFor env fs clock bd k (.obj flds) =
                  generate_jwt_token env fs clock k
                    (joinPath bd
                      (pyStrOf ((objGet (.obj flds) "username").getD .null) ++ ".txt"))
                    (joinPath bd
                      (pyStrOf ((objGet (.obj flds) "username").getD .null) ++ ".pem"))
                from rfl, hret]
              by_cases htok : tok = ""
              · subst htok
                simp only [ne_eq, not_true_eq_false, Bool.false_eq_true,
                  if_false] at h
                cases h
                simp
              · simp only [ne_eq, htok, not_false_eq_true, if_true] at h
                cases h
                simp [bne_iff_ne.mpr htok]
        · simp only [hu, Bool.not_false, if_true] at h
          cases h
          unfold refreshConn
          simp [hty, usernameOf, hu]
      · simp only [hty, Bool.false_eq_true, if_false] at h
        cases h
        unfold refreshConn
        simp [hty]
  | null => simp [updateConnector, pyGet, error_bind] at h
  | bool x => simp [updateConnector, pyGet, error_bind] at h
  | int x => simp [updateConnector, pyGet, error_bind] at h
  | str x => simp [updateConnector, pyGet, error_bind] at h
  | arr x => simp [updateConnector, pyGet, error_bind] at h

theorem updateConnectors_changed {env : Env} {fs : FS} {clock : ℕ → ℚ}
    {bd : String} {cs : List JVal} {k : ℕ} {rs : ConnsResult}
    (h : updateConnectors env fs clock bd k cs = .ok rs) :
    rs.changed = (refreshConns env fs clock bd k cs).1 ∧
    rs.k = (refreshConns env fs clock bd k cs).2 := by
  induction cs generalizing k rs with
  | nil =>
      simp only [updateConnectors] at h
      cases h
      simp [refreshConns]
  | cons c rest ih =>
      simp only [updateConnectors] at h
      cases hc : updateConnector env fs clock bd k c with
      | error e => rw [hc] at h; simp [error_bind] at h
      | ok r =>
          rw [hc, ok_bind] at h
          cases hr : updateConnectors env fs clock bd r.k rest with
          | error e => rw [hr] at h; simp [error_bind] at h
          | ok rs2 =>
              rw [hr, ok_bind] at h
              cases h
              obtain ⟨hch, hk⟩ := updateConnector_changed hc
              have hr2 : updateConnectors env fs clock bd
                  (refreshConn env fs clock bd k c).2 rest = .ok rs2 := by
                rw [← hk]; exact hr
              obtain ⟨hch2, hk2⟩ := ih hr2
              unfold refreshConns
              simp [hch, hch2, hk2]

theorem updateLink_changed {env : Env} {fs : FS} {clock : ℕ → ℚ}
    {bd : String} {k : ℕ} {l l2 : JVal} {k2 : ℕ} {ch : Bool}
    {rd : List String} {w : Bool}
    (h : updateLink env fs clock bd k l = .ok (l2, k2, ch, rd, w)) :
    ch = (refreshLink env fs clock bd k l).1 ∧
    k2 = (refreshLink env fs clock bd k l).2 := by
  cases l with
  | obj flds =>
      simp only [updateLink, pyContains, ok_bind] at h
      by_cases hany : flds.any (fun p => p.1 = "connectors")
      · simp only [hany, if_true] at h
        have hsome : (List.lookup "connectors" flds).isSome = true := by
          rw [lookup_isSome_eq_any]; exact hany
        cases hlk : List.lookup "connectors" flds with
        | none => rw [hlk] at hsome; simp at hsome
        | some v =>
            simp only [pySubscript, hlk, ok_bind] at h
            cases v with
            | arr cs =>
                have h2 : (do
                    let rs ← updateConnectors env fs clock bd k cs
                    Except.ok (objSet (JVal.obj flds) "connectors"
                        (JVal.arr rs.conns), rs.k, rs.changed, rs.reads,
                      rs.warned)) = Except.ok (l2, k2, ch, rd, w) := h
                cases hcs : updateConnectors env fs clock bd k cs with
                | error e => rw [hcs] at h2; simp [error_bind] at h2
                | ok rs =>
                    rw [hcs, ok_bind] at h2
                    cases h2
                    obtain ⟨hch, hk⟩ := updateConnectors_changed hcs
                    unfold refreshLink
                    simp only [objGet, hlk]
                    exact ⟨hch, hk⟩
            | null => cases h; simp [refreshLink, objGet, hlk]
            | bool x => cases h; simp [refreshLink, objGet, hlk]
            | int x => cases h; simp [refreshLink, objGet, hlk]
            | str x => cases h; simp [refreshLink, objGet, hlk]
            | obj x => cases h; simp [refreshLink, objGet, hlk]
      · have hf : (flds.any fun p => decide (p.1 = "connectors")) = false :=
          Bool.eq_false_iff.mpr hany
        simp only [hf, Bool.false_eq_true, if_false] at h
        cases h
        have hnone : List.lookup "connectors" flds = none := by
          cases hlk : List.lookup "connectors" flds with
          | none => rfl
          | some v =>
              have hq := lookup_isSome_eq_any flds "connectors"
              rw [hlk, hf] at hq
              simp at hq
        simp [refreshLink, objGet, hnone]
  | arr xs =>
      simp only [updateLink, pyContains, ok_bind] at h
      by_cases hany : xs.any (fun v => pyEqStr v "connectors")
      · simp [hany, pySubscript, error_bind] at h
      · simp only [hany, Bool.false_eq_true, if_false] at h
        cases h
        simp [refreshLink]
  | str s =>
      simp only [updateLink, pyContains, ok_bind] at h
      by_cases hany : pyStrContains s "connectors"
      · simp [hany, pySubscript, error_bind] at h
      · simp only [hany, Bool.false_eq_true, if_false] at h
        cases h
        simp [refreshLink]
  | null => simp [updateLink, pyContains, error_bind] at h
  | bool x => simp [updateLink, pyContains, error_bind] at h
  | int x => simp [updateLink, pyContains, error_bind] at h

theorem updateLinks_changed {env : Env} {fs : FS} {clock : ℕ → ℚ}
    {bd : String} {ls : List JVal} {k : ℕ} {ls2 : List JVal} {k2 : ℕ}
    {ch : Bool} {rd : List String} {w : Bool}
    (h : updateLinks env fs clock bd k ls = .ok (ls2, k2, ch, rd, w)) :
    ch = (refreshLinks env fs clock bd k ls).1 ∧
    k2 = (refreshLinks env fs clock bd k ls).2 := by
  induction ls generalizing k ls2 k2 ch rd w with
  | nil =>
      simp only [updateLinks] at h
      cases h
      simp [refreshLinks]
  | cons l rest ih =>
      simp only [updateLinks] at h
      cases hl : updateLink env fs clock bd k l with
      | error e => rw [hl] at h; simp [error_bind] at h
      | ok t =>
          obtain ⟨l1, k1, ch1, rd1, w1⟩ := t
          rw [hl, ok_bind] at h
          cases hr : updateLinks env fs clock bd k1 rest with
          | error e => rw [hr] at h; simp [error_bind] at h
          | ok t2 =>
              obtain ⟨ls3, k3, ch3, rd3, w3⟩ := t2
              rw [hr, ok_bind] at h
              cases h
              obtain ⟨hch, hk⟩ := updateLink_changed hl
              have hr2 : updateLinks env fs clock bd
                  (refreshLink env fs clock bd k l).2 rest =
                    .ok (ls3, k3, ch3, rd3, w3) := by
                rw [← hk]; exact hr
              obtain ⟨hch2, hk2⟩ := ih hr2
              unfold refreshLinks
              simp [hch, hch2, hk2]

/-! ## C4: when the document is written back -/

/-- A one-link document with the given connectors. -/
def docWith (cs : List JVal) : JVal :=
  .obj [("links", .arr [.obj [("connectors", .arr cs)]])]

/-- A connector whose stored token equals the token the environment will
generate. -/
def tokConn : JVal :=
  .obj [("type", .str "zello-channel-api"), ("username", .str "u"),
        ("token", .str "TOKEN")]

/-- The configuration document holding it. -/
def cfgDoc : JVal := docWith [tokConn]

/-- An environment whose signer always produces the token "TOKEN" — the
very token already stored in `tokConn`. -/
def env4 : Env :=
  ⟨fun s => if s = "CFG4" then some cfgDoc else none,
   fun _ => "OUT4", fun _ => some "KEY", fun _ _ => some "TOKEN"⟩

/-- Filesystem with the configuration and the credential files of `u`. -/
def fs4 : FS :=
  ⟨[("etc/bridge.json", "CFG4"), ("etc/u.pem", "PEM"), ("etc/u.txt", "ISS")]⟩

/-- Counterexample to C4 as stated: in this pass the generated token equals
the token already stored, so no connector's token value changes — the
written document equals the parsed one — and yet the mutator still
serializes and writes the file (`wrote = true`), because `changes_made` is
set whenever a token is generated, not when its value differs. -/
theorem write_despite_unchanged_tokens :
    env4.parse "CFG4" = some cfgDoc ∧
    fs4.lookup "etc/bridge.json" = some "CFG4" ∧
    update_connector_tokens env4 fs4 clock0 (.str "etc/bridge.json") =
      .ok ⟨fs4.write "etc/bridge.json" (env4.dump cfgDoc), true,
           some cfgDoc⟩ :=
  ⟨rfl, rfl, rfl⟩

/-- C4 amended: the mutator serializes and writes the document back iff at
least one eligible connector's token generation returned a truthy token
in this pass (in which case the token is assigned, whether or not the new
value differs from the stored one); a pass in which no token is generated
produces no write and leaves the filesystem untouched. -/
theorem update_writes_iff_generation_succeeded
    (env : Env) (fs : FS) (clock : ℕ → ℚ) (p content : String)
    (dfields : List (String × JVal)) (links : List JVal) (r : MutResult)
    (hlook : fs.lookup p = some content)
    (hparse : env.parse content = some (.obj dfields))
    (hlinks : List.lookup "links" dfields = some (.arr links))
    (hup : update_connector_tokens env fs clock (.str p) = .ok r) :
    r.wrote = (refreshLinks env fs clock (dirname p) 0 links).1 ∧
    (r.wrote = false → r.fsOut = fs ∧ r.written = none) := by
  simp only [update_connector_tokens, hlook, hparse, objGet, hlinks] at hup
  cases hul : updateLinks env fs clock (dirname p) 0 links with
  | error e => rw [hul] at hup; simp at hup
  | ok t =>
      obtain ⟨ls2, k2, ch, rd, w⟩ := t
      simp only [hul] at hup
      obtain ⟨hch, -⟩ := updateLinks_changed hul
      cases hc : ch with
      | true =>
          rw [hc] at hup hch
          simp only [if_true] at hup
          cases hup
          exact ⟨hch, by intro hw; cases hw⟩
      | false =>
          rw [hc] at hup hch
          simp only [Bool.false_eq_true, if_false] at hup
          cases hup
          exact ⟨hch, fun _ => ⟨rfl, rfl⟩⟩

/-- Witness for the amended C4 at the concrete fixture: the pass generated
a token (equal to the stored one), so `refreshLinks` reports a generation
and the document was written. -/
theorem update_writes_iff_generation_succeeded_witness :
    (MutResult.mk (fs4.write "etc/bridge.json" (env4.dump cfgDoc)) true
        (some cfgDoc)).wrote =
      (refreshLinks env4 fs4 clock0 (dirname "etc/bridge.json") 0
        [.obj [("connectors", .arr [tokConn])]]).1 ∧
    ((MutResult.mk (fs4.write "etc/bridge.json" (env4.dump cfgDoc)) true
        (some cfgDoc)).wrote = false →
      (MutResult.mk (fs4.write "etc/bridge.json" (env4.dump cfgDoc)) true
        (some cfgDoc)).fsOut = fs4 ∧
      (MutResult.mk (fs4.write "etc/bridge.json" (env4.dump cfgDoc)) true
        (some cfgDoc)).written = none) :=
  update_writes_iff_generation_succeeded env4 fs4 clock0 "etc/bridge.json"
    "CFG4" [("links", .arr [.obj [("connectors", .arr [tokConn])]])]
    [.obj [("connectors", .arr [tokConn])]]
    ⟨fs4.write "etc/bridge.json" (env4.dump cfgDoc), true, some cfgDoc⟩
    rfl rfl rfl rfl

/-! ## C6: a failing connector neither blocks its siblings nor the write -/

/-- C6.  In a pass over a document whose single link holds the connector
list `.obj flds :: rest`, if the first connector is eligible (matching
type, truthy username) but its token generation fails, then that connector
is carried into the output document unchanged, the remaining connectors are
still processed (producing `rs`), and the document is written exactly when
one of them succeeded. -/
theorem failed_connector_does_not_block_write
    (env : Env) (fs : FS) (clock : ℕ → ℚ) (p content : String)
    (flds : List (String × JVal)) (rest : List JVal) (rs : ConnsResult)
    (hlook : fs.lookup p = some content)
    (hparse : env.parse content = some (docWith (.obj flds :: rest)))
    (hty : (objGet (.obj flds) "type").getD .null = .str "zello-channel-api")
    (hu : pyTruthy (usernameOf (.obj flds)) = true)
    (hgen : (genFor env fs clock (dirname p) 0 (.obj flds)).ret = none)
    (hrest : updateConnectors env fs clock (dirname p)
        (genFor env fs clock (dirname p) 0 (.obj flds)).kNext rest = .ok rs) :
    (rs.changed = true →
      update_connector_tokens env fs clock (.str p) =
        .ok ⟨fs.write p (env.dump (docWith (.obj flds :: rs.conns))), true,
             some (docWith (.obj flds :: rs.conns))⟩) ∧
    (rs.changed = false →
      update_connector_tokens env fs clock (.str p) = .ok ⟨fs, false, none⟩) := by
  simp only [genFor, issuerPathFor, keyPathFor, usernameOf] at hgen hrest
  have hconn : updateConnector env fs clock (dirname p) 0 (.obj flds) =
      .ok ⟨.obj flds,
           (generate_jwt_token env fs clock 0
             (joinPath (dirname p)
               (pyStrOf ((objGet (.obj flds) "username").getD .null) ++ ".txt"))
             (joinPath (dirname p)
               (pyStrOf ((objGet (.obj flds) "username").getD .null) ++ ".pem"))).kNext,
           false,
           (generate_jwt_token env fs clock 0
             (joinPath (dirname p)
               (pyStrOf ((objGet (.obj flds) "username").getD .null) ++ ".txt"))
             (joinPath (dirname p)
               (pyStrOf ((objGet (.obj flds) "username").getD .null) ++ ".pem"))).reads,
           false⟩ := by
    simp only [usernameOf] at hu
    simp [updateConnector, pyGet, ok_bind, hty, pyEqStr, hu, hgen]
  have hconns : updateConnectors env fs clock (dirname p) 0
      (.obj flds :: rest) =
      .ok ⟨.obj flds :: rs.conns, rs.k, rs.changed,
           (generate_jwt_token env fs clock 0
             (joinPath (dirname p)
               (pyStrOf ((objGet (.obj flds) "username").getD .null) ++ ".txt"))
             (joinPath (dirname p)
               (pyStrOf ((objGet (.obj flds) "username").getD .null) ++ ".pem"))).reads
             ++ rs.reads,
           rs.warned⟩ := by
    simp [updateConnectors, hconn, ok_bind, hrest]
  have hlink : updateLink env fs clock (dirname p) 0
      (.obj [("connectors", .arr (.obj flds :: rest))]) =
      .ok (.obj [("connectors", .arr (.obj flds :: rs.conns))], rs.k,
           rs.changed,
           (generate_jwt_token env fs clock 0
             (joinPath (dirname p)
               (pyStrOf ((objGet (.obj flds) "username").getD .null) ++ ".txt"))
             (joinPath (dirname p)
               (pyStrOf ((objGet (.obj flds) "username").getD .null) ++ ".pem"))).reads
             ++ rs.reads,
           rs.warned) := by
    simp [updateLink, pyContains, pySubscript, List.lookup, ok_bind, hconns,
      objSet, setAssoc]
  have hlinks : updateLinks env fs clock (dirname p) 0
      [.obj [("connectors", .arr (.obj flds :: rest))]] =
      .ok ([.obj [("connectors", .arr (.obj flds :: rs.conns))]], rs.k,
           rs.changed,
           (generate_jwt_token env fs clock 0
             (joinPath (dirname p)
               (pyStrOf ((objGet (.obj flds) "username").getD .null) ++ ".txt"))
             (joinPath (dirname p)
               (pyStrOf ((objGet (.obj flds) "username").getD .null) ++ ".pem"))).reads
             ++ rs.reads,
           rs.warned) := by
    simp [updateLinks, hlink, ok_bind]
  constructor
  · intro hch
    simp [update_connector_tokens, hlook, hparse, docWith, objGet,
      List.lookup, hlinks, hch, objSet, setAssoc]
  · intro hch
    simp [update_connector_tokens, hlook, hparse, docWith, objGet,
      List.lookup, hlinks, hch, objSet, setAssoc]

/-- First connector of the C6 witness: its key file does not exist. -/
def ghostConn : JVal :=
  .obj [("type", .str "zello-channel-api"), ("username", .str "ghost"),
        ("token", .str "OLD1")]

/-- Second connector of the C6 witness: generation succeeds for it. -/
def okConn : JVal :=
  .obj [("type", .str "zello-channel-api"), ("username", .str "u"),
        ("token", .str "OLD2")]

/-- Environment for the C6 witness. -/
def env6 : Env :=
  ⟨fun s => if s = "CFG6" then some (docWith [ghostConn, okConn]) else none,
   fun _ => "OUT6", fun _ => some "KEY", fun _ _ => some "FRESH"⟩

/-- Filesystem for the C6 witness: credentials only for `u`. -/
def fs6 : FS :=
  ⟨[("etc/bridge.json", "CFG6"), ("etc/u.pem", "PEM"), ("etc/u.txt", "ISS")]⟩

/-- Witness for C6: the first connector fails (missing key), the second
succeeds, and the document is written with the first connector unchanged
and the second refreshed. -/
theorem failed_connector_does_not_block_write_witness :
    update_connector_tokens env6 fs6 clock0 (.str "etc/bridge.json") =
      .ok ⟨fs6.write "etc/bridge.json"
             (env6.dump (docWith [ghostConn,
               objSet okConn "token" (.str "FRESH")])), true,
           some (docWith [ghostConn, objSet okConn "token" (.str "FRESH")])⟩ :=
  (failed_connector_does_not_block_write env6 fs6 clock0 "etc/bridge.json"
      "CFG6" [("type", .str "zello-channel-api"),
              ("username", .str "ghost"), ("token", .str "OLD1")]
      [okConn]
      ⟨[objSet okConn "token" (.str "FRESH")], 1, true,
       ["etc/u.pem", "etc/u.txt"], false⟩
      rfl rfl rfl rfl rfl rfl).1 rfl

/-! ## C8: the mutator touches only the token of zello connectors -/

/-- Erase the `token` field of every `zello-channel-api` connector; all
other connectors and fields are kept verbatim. -/
def scrubConnector (c : JVal) : JVal :=
  match c with
  | .obj flds =>
      if pyEqStr ((objGet c "type").getD .null) "zello-channel-api" then
        .obj (removeField flds "token")
      else c
  | _ => c

/-- Erase zello tokens inside one link, walking exactly the shapes the
mutator walks. -/
def scrubLink (l : JVal) : JVal :=
  match l with
  | .obj _ =>
      match objGet l "connectors" with
      | some (.arr cs) => objSet l "connectors" (.arr (cs.map scrubConnector))
      | _ => l
  | _ => l

/-- Erase zello tokens everywhere in a document. -/
def scrubDoc (d : JVal) : JVal :=
  match d with
  | .obj _ =>
      match objGet d "links" with
      | some (.arr ls) => objSet d "links" (.arr (ls.map scrubLink))
      | _ => d
  | _ => d

theorem scrub_updateConnector {env : Env} {fs : FS} {clock : ℕ → ℚ}
    {bd : String} {k : ℕ} {c : JVal} {r : ConnResult}
    (h : updateConnector env fs clock bd k c = .ok r) :
    scrubConnector r.connector = scrubConnector c := by
  cases c with
  | obj flds =>
      simp only [updateConnector, pyGet, ok_bind] at h
      by_cases hty :
          pyEqStr ((objGet (.obj flds) "type").getD .null) "zello-channel-api"
      · simp only [hty, if_true] at h
        by_cases hu : pyTruthy ((objGet (.obj flds) "username").getD .null)
        · simp only [hu, Bool.not_true, Bool.false_eq_true, if_false] at h
          cases hret : (generate_jwt_token env fs clock k
              (joinPath bd
                (pyStrOf ((objGet (.obj flds) "username").getD .null) ++ ".txt"))
              (joinPath bd
                (pyStrOf ((objGet (.obj flds) "username").getD .null) ++ ".pem"))).ret with
          | none => rw [hret] at h; cases h; rfl
          | some tok =>
              rw [hret] at h
              by_cases htok : tok = ""
              · subst htok
                simp only [ne_eq, not_true_eq_false, Bool.false_eq_true,
                  if_false] at h
                cases h
                rfl
              · simp only [ne_eq, htok, not_false_eq_true, if_true] at h
                cases h
                have hty2 : (objGet (.obj (setAssoc flds "token" (.str tok)))
                    "type").getD .null =
                    (objGet (.obj flds) "type").getD .null := by
                  simp [objGet,
                    lookup_setAssoc_ne flds "token" "type" (.str tok)
                      (by decide)]
                simp only [scrubConnector, objSet, hty2, hty, if_true,
                  removeField_setAssoc]
        · simp only [hu, Bool.not_false, if_true] at h
          cases h
          rfl
      · simp only [hty, Bool.false_eq_true, if_false] at h
        cases h
        rfl
  | null => simp [updateConnector, pyGet, error_bind] at h
  | bool x => simp [updateConnector, pyGet, error_bind] at h
  | int x => simp [updateConnector, pyGet, error_bind] at h
  | str x => simp [updateConnector, pyGet, error_bind] at h
  | arr x => simp [updateConnector, pyGet, error_bind] at h

theorem scrub_updateConnectors {env : Env} {fs : FS} {clock : ℕ → ℚ}
    {bd : String} {cs : List JVal} {k : ℕ} {rs : ConnsResult}
    (h : updateConnectors env fs clock bd k cs = .ok rs) :
    rs.conns.map scrubConnector = cs.map scrubConnector := by
  induction cs generalizing k rs with
  | nil => simp only [updateConnectors] at h; cases h; rfl
  | cons c rest ih =>
      simp only [updateConnectors] at h
      cases hc : updateConnector env fs clock bd k c with
      | error e => rw [hc] at h; simp [error_bind] at h
      | ok r =>
          rw [hc, ok_bind] at h
          cases hr : updateConnectors env fs clock bd r.k rest with
          | error e => rw [hr] at h; simp [error_bind] at h
          | ok rs2 =>
              rw [hr, ok_bind] at h
              cases h
              simp only [List.map_cons]
              rw [scrub_updateConnector hc, ih hr]

theorem scrub_updateLink {env : Env} {fs : FS} {clock : ℕ → ℚ}
    {bd : String} {k : ℕ} {l l2 : JVal} {k2 : ℕ} {ch : Bool}
    {rd : List String} {w : Bool}
    (h : updateLink env fs clock bd k l = .ok (l2, k2, ch, rd, w)) :
    scrubLink l2 = scrubLink l := by
  cases l with
  | obj flds =>
      simp only [updateLink, pyContains, ok_bind] at h
      by_cases hany : flds.any (fun p => p.1 = "connectors")
      · simp only [hany, if_true] at h
        have hsome : (List.lookup "connectors" flds).isSome = true := by
          rw [lookup_isSome_eq_any]; exact hany
        cases hlk : List.lookup "connectors" flds with
        | none => rw [hlk] at hsome; simp at hsome
        | some v =>
            simp only [pySubscript, hlk, ok_bind] at h
            cases v with
            | arr cs =>
                have h2 : (do
                    let rs ← updateConnectors env fs clock bd k cs
                    Except.ok (objSet (JVal.obj flds) "connectors"
                        (JVal.arr rs.conns), rs.k, rs.changed, rs.reads,
                      rs.warned)) = Except.ok (l2, k2, ch, rd, w) := h
                cases hcs : updateConnectors env fs clock bd k cs with
                | error e => rw [hcs] at h2; simp [error_bind] at h2
                | ok rs =>
                    rw [hcs, ok_bind] at h2
                    cases h2
                    have hmap := scrub_updateConnectors hcs
                    simp only [scrubLink, objSet, objGet,
                      lookup_setAssoc_self, setAssoc_setAssoc, hlk, hmap]
            | null => cases h; rfl
            | bool x => cases h; rfl
            | int x => cases h; rfl
            | str x => cases h; rfl
            | obj x => cases h; rfl
      · have hf : (flds.any fun p => decide (p.1 = "connectors")) = false :=
          Bool.eq_false_iff.mpr hany
        simp only [hf, Bool.false_eq_true, if_false] at h
        cases h
        rfl
  | arr xs =>
      simp only [updateLink, pyContains, ok_bind] at h
      by_cases hany : xs.any (fun v => pyEqStr v "connectors")
      · simp [hany, pySubscript, error_bind] at h
      · simp only [hany, Bool.false_eq_true, if_false] at h
        cases h
        rfl
  | str s =>
      simp only [updateLink, pyContains, ok_bind] at h
      by_cases hany : pyStrContains s "connectors"
      · simp [hany, pySubscript, error_bind] at h
      · simp only [hany, Bool.false_eq_true, if_false] at h
        cases h
        rfl
  | null => simp [updateLink, pyContains, error_bind] at h
  | bool x => simp [updateLink, pyContains, error_bind] at h
  | int x => simp [updateLink, pyContains, error_bind] at h

theorem scrub_updateLinks {env : Env} {fs : FS} {clock : ℕ → ℚ}
    {bd : String} {ls : List JVal} {k : ℕ} {ls2 : List JVal} {k2 : ℕ}
    {ch : Bool} {rd : List String} {w : Bool}
    (h : updateLinks env fs clock bd k ls = .ok (ls2, k2, ch, rd, w)) :
    ls2.map scrubLink = ls.map scrubLink := by
  induction ls generalizing k ls2 k2 ch rd w with
  | nil => simp only [updateLinks] at h; cases h; rfl
  | cons l rest ih =>
      simp only [updateLinks] at h
      cases hl : updateLink env fs clock bd k l with
      | error e => rw [hl] at h; simp [error_bind] at h
      | ok t =>
          obtain ⟨l1, k1, ch1, rd1, w1⟩ := t
          rw [hl, ok_bind] at h
          cases hr : updateLinks env fs clock bd k1 rest with
          | error e => rw [hr] at h; simp [error_bind] at h
          | ok t2 =>
              obtain ⟨ls3, k3, ch3, rd3, w3⟩ := t2
              rw [hr, ok_bind] at h
              cases h
              simp only [List.map_cons]
              rw [scrub_updateLink hl, ih hr]

/-- C8.  The mutator's only modification is the `token` field of
`zello-channel-api` connectors.  First conjunct: a connector of any other
type is returned verbatim — its result does not depend on (and in
particular never reads) its `token` field, nothing is written to it, and no
credential file is consulted for it.  Second conjunct: whenever a pass
writes a document, that document agrees with the parsed input everywhere
except possibly on the `token` fields of `zello-channel-api` connectors —
every other field and every unknown key passes through unchanged. -/
theorem mutator_touches_only_zello_tokens
    (env : Env) (fs : FS) (clock : ℕ → ℚ) :
    (∀ (bd : String) (k : ℕ) (c t : JVal), pyGet c "type" = .ok t →
      pyEqStr t "zello-channel-api" = false →
      updateConnector env fs clock bd k c = .ok ⟨c, k, false, [], false⟩) ∧
    (∀ (p content : String) (data d2 : JVal) (r : MutResult),
      fs.lookup p = some content →
      env.parse content = some data →
      update_connector_tokens env fs clock (.str p) = .ok r →
      r.written = some d2 →
      scrubDoc d2 = scrubDoc data) := by
  constructor
  · intro bd k c t ht hne
    cases c with
    | obj flds =>
        simp only [pyGet, Except.ok.injEq] at ht
        subst ht
        simp [updateConnector, pyGet, ok_bind, hne]
    | null => simp [pyGet] at ht
    | bool x => simp [pyGet] at ht
    | int x => simp [pyGet] at ht
    | str x => simp [pyGet] at ht
    | arr x => simp [pyGet] at ht
  · intro p content data d2 r hlook hparse hup hwr
    simp only [update_connector_tokens, hlook, hparse] at hup
    cases data with
    | obj dfields =>
        cases hlv : objGet (.obj dfields) "links" with
        | none =>
            simp only [hlv] at hup
            cases hup
            cases hwr
        | some v =>
            cases v with
            | arr links =>
                simp only [hlv] at hup
                cases hul : updateLinks env fs clock (dirname p) 0 links with
                | error e => simp only [hul] at hup; cases hup
                | ok t =>
                    obtain ⟨ls2, k2, ch, rd, w⟩ := t
                    simp only [hul] at hup
                    cases hc : ch with
                    | true =>
                        rw [hc] at hup
                        simp only [if_true] at hup
                        cases hup
                        cases hwr
                        have hmap := scrub_updateLinks hul
                        have hlv2 : List.lookup "links" dfields =
                            some (.arr links) := hlv
                        simp only [scrubDoc, objSet, objGet,
                          lookup_setAssoc_self, setAssoc_setAssoc, hlv2, hmap]
                    | false =>
                        rw [hc] at hup
                        simp only [Bool.false_eq_true, if_false] at hup
                        cases hup
                        cases hwr
            | null => simp only [hlv] at hup; cases hup; cases hwr
            | bool x => simp only [hlv] at hup; cases hup; cases hwr
            | int x => simp only [hlv] at hup; cases hup; cases hwr
            | str x => simp only [hlv] at hup; cases hup; cases hwr
            | obj x => simp only [hlv] at hup; cases hup; cases hwr
    | null => cases hup; cases hwr
    | bool x => cases hup; cases hwr
    | int x => cases hup; cases hwr
    | str x => cases hup; cases hwr
    | arr x => cases hup; cases hwr

/-- A connector of a different type, with a token. -/
def otherConn : JVal := .obj [("type", .str "xmpp"), ("token", .str "T")]

/-- Witness for C8: the non-zello connector passes through verbatim, and
the concrete written document of the `env4` pass scrubs to the parsed
document. -/
theorem mutator_touches_only_zello_tokens_witness :
    updateConnector env4 fs4 clock0 "etc" 0 otherConn =
      .ok ⟨otherConn, 0, false, [], false⟩ ∧
    scrubDoc cfgDoc = scrubDoc cfgDoc := by
  have h := mutator_touches_only_zello_tokens env4 fs4 clock0
  constructor
  · exact h.1 "etc" 0 otherConn (.str "xmpp") rfl rfl
  · exact h.2 "etc/bridge.json" "CFG4" cfgDoc cfgDoc
      ⟨fs4.write "etc/bridge.json" (env4.dump cfgDoc), true, some cfgDoc⟩
      rfl rfl rfl rfl

end ZelloBridgeWatchdog
